import Mathlib

/-!
Verification development for the W3C Verifiable-Credential verifier
(src/verification.js).  The JavaScript source is shallowly embedded:
JSON values become the `Json` inductive, the process-wide document cache
and the observable effect logs (network requests, assembled suites, race
resolution times) become an explicit `VState` record threaded through the
functions, external collaborators (`fetch`, the Ed25519 key constructor,
`jsigs.verify`) become an `Env` of oracles, and JavaScript exceptions
become `Except JsError`.  Each embedded function mirrors the control flow
of its source function line by line; deviations forced by the embedding
(e.g. the progress callback, which the source only invokes and whose
result it never uses, is dropped) are noted at the definition.
-/

/-- JavaScript/JSON values as consumed by the verifier.  `undefined` is the
result of reading an absent property; object field lists are assumed
duplicate-free (JSON parsing collapses duplicates). -/
inductive Json where
  | null
  | undefined
  | bool (b : Bool)
  | num (n : Int)
  | str (s : String)
  | arr (elems : List Json)
  | obj (fields : List (String × Json))
deriving Repr

/-- A thrown JavaScript error: its `name` and its `message` string (every
throw site in the source and every library rejection produces an `Error`
instance with a string message). -/
structure JsError where
  name : String
  message : String
deriving Repr, DecidableEq

/-- `p` is a prefix of `s` (character lists). -/
def leadsWithC : List Char → List Char → Bool
  | [], _ => true
  | _ :: _, [] => false
  | p :: ps, s :: ss => p = s && leadsWithC ps ss

/-- JS `String.prototype.startsWith`. -/
def strLeadsWith (s p : String) : Bool := leadsWithC p.data s.data

/-- `pat` occurs as a contiguous substring of `s` (character lists). -/
def containsSubC (pat : List Char) : List Char → Bool
  | [] => leadsWithC pat []
  | x :: xs => leadsWithC pat (x :: xs) || containsSubC pat xs

/-- JS `String.prototype.includes`. -/
def strIncludes (s pat : String) : Bool := containsSubC pat.data s.data

/-- Split a character list at every occurrence of the character `c`
(JS `split` with a one-character separator). -/
def splitOnCharC (c : Char) : List Char → List (List Char)
  | [] => [[]]
  | x :: xs =>
    let r := splitOnCharC c xs
    if x = c then [] :: r
    else
      match r with
      | [] => [[x]]
      | h :: t => (x :: h) :: t

/-- JS `s.split(sep)` for a one-character separator `sep`. -/
def strSplitChar (s : String) (c : Char) : List String :=
  (splitOnCharC c s.data).map List.asString

/-- JS `s.replace(/c/g, d)` for one-character pattern and replacement. -/
def strReplaceAllChar (s : String) (c d : Char) : String :=
  (s.data.map fun x => if x = c then d else x).asString

/-- Drop the first `n` characters of a string (used for the one
`url.replace("did:web:", "")` site, which executes under a
`url.startsWith("did:web:")` guard, so the first occurrence of the
pattern is the leading one and JS first-occurrence replacement by the
empty string is exactly dropping the pattern length). -/
def strDropC (s : String) (n : Nat) : String := (s.data.drop n).asString

/-- JS truthiness (`NaN` is not modelled; numbers are integers). -/
def jsTruthy : Json → Bool
  | .null => false
  | .undefined => false
  | .bool b => b
  | .num n => decide (n ≠ 0)
  | .str s => decide (s ≠ "")
  | .arr _ => true
  | .obj _ => true

/-- First binding of field `f` in an object field list, `undefined` if absent. -/
def fieldLookup : List (String × Json) → String → Json
  | [], _ => .undefined
  | (k, v) :: rest, f => if k = f then v else fieldLookup rest f

/-- Total JS property read `j[f]`: only used at sites where the source
has already established that the receiver is truthy (hence not
`null`/`undefined`); on non-objects it yields `undefined`, as in JS. -/
def getF : Json → String → Json
  | .obj kvs, f => fieldLookup kvs f
  | _, _ => .undefined

/-- JS property read that, as in JS, throws a `TypeError` on a `null` or
`undefined` receiver; used where the source reads properties of
unvalidated values (the elements of the key-bearing arrays). -/
def jsGetField : Json → String → Except JsError Json
  | .null, _ => .error ⟨"TypeError", "Cannot read properties of null"⟩
  | .undefined, _ => .error ⟨"TypeError", "Cannot read properties of undefined"⟩
  | j, f => .ok (getF j f)

/-- JS strict equality `j === s` against a string literal/value: only a
string with the same characters compares equal. -/
def jsEqStr (j : Json) (s : String) : Bool :=
  match j with
  | .str t => t = s
  | _ => false

/-- JS `Array.isArray`. -/
def jsIsArray : Json → Bool
  | .arr _ => true
  | _ => false

/-- Elements of an array value (empty for non-arrays; only read under an
`Array.isArray` guard). -/
def jsElems : Json → List Json
  | .arr xs => xs
  | _ => []

/-- String conversion of a value interpolated into a template literal,
for the elements of an array (JS renders `null`/`undefined` elements as
the empty string). -/
def jsTemplateAtom : Json → String
  | .null => ""
  | .undefined => ""
  | .bool true => "true"
  | .bool false => "false"
  | .num n => toString n
  | .str s => s
  | .arr _ => ""
  | .obj _ => "[object Object]"

/-- String conversion of a value interpolated into a template literal
(`${v}`).  Array rendering joins the elements with commas one level deep
(the source only ever interpolates strings into messages that are later
re-inspected, so deeper nesting never matters). -/
def jsTemplate : Json → String
  | .null => "null"
  | .undefined => "undefined"
  | .bool true => "true"
  | .bool false => "false"
  | .num n => toString n
  | .str s => s
  | .arr xs => String.intercalate "," (xs.map jsTemplateAtom)
  | .obj _ => "[object Object]"

/-- The triple produced by the document loader for every resolution
outcome (`contextUrl`, `document`, `documentUrl` in the source). -/
structure ResolvedDocument where
  contextUrl : Json
  document : Json
  documentUrl : Json
deriving Repr

/-- The suite object built by `new Ed25519Signature2018({key,
verificationMethod})`: the materialized key and the verification-method
binding it is parameterized with. -/
structure SuiteBinding where
  key : Json
  verificationMethod : Json
deriving Repr

/-- Behaviour of the external `jsigs.verify` unit for one invocation:
it either settles (fulfils or rejects) after `t` milliseconds, or it
stalls forever (never settles). -/
inductive UnitBehavior where
  | stalls
  | completes (t : Nat) (r : Except JsError Json)

/-- External collaborators, abstracted as oracles: `fetch` (composed
with `response.json()`: `some doc` is a successful fetch-and-parse,
`none` any network/HTTP/parse failure — the source never inspects the
failure beyond falling into its catch), the
`Ed25519VerificationKey2018` constructor (which may throw on bad key
material), and the `jsigs.verify` call. -/
structure Env where
  fetch : String → Option Json
  keyCtor : Json → Except JsError Json
  jsigsVerify : Json → SuiteBinding → UnitBehavior

/-- The explicit mutable/observable state threaded through the embedded
functions: the module-level `documentCache`, the log of issued network
requests (each attempted `fetch` URL, in order), the log of assembled
suites paired with the resolved key record they were built from, the log
of race resolution times (milliseconds) for each executed
verification/timeout race, and the heap slot holding the caller-owned
credential object. -/
structure VState where
  cache : List (String × ResolvedDocument)
  net : List String
  suiteLog : List (Json × SuiteBinding)
  raceLog : List Nat
  credStore : Json

/-- Lookup in the document cache (`documentCache.get`). -/
def cacheFind : List (String × ResolvedDocument) → String → Option ResolvedDocument
  | [], _ => none
  | (k, v) :: rest, u => if k = u then some v else cacheFind rest u

/-- `documentCache.set(url, result)` (insert, shadowing any older entry). -/
def cacheAdd (st : VState) (u : String) (r : ResolvedDocument) : VState :=
  { st with cache := (u, r) :: st.cache }

/-- Record one outgoing network request. -/
def netLog (st : VState) (u : String) : VState :=
  { st with net := st.net ++ [u] }

/-- The inlined `CONTEXTS.W3C_CREDENTIALS_V1` table entry. -/
def W3C_CREDENTIALS_V1 : Json := .obj
  [ ("@version", .num 1)
  , ("id", .str "@id")
  , ("type", .str "@type")
  , ("VerifiableCredential", .obj
      [ ("@id", .str "https://www.w3.org/2018/credentials#VerifiableCredential")
      , ("@context", .obj
          [ ("@version", .num 1)
          , ("id", .str "@id")
          , ("type", .str "@type")
          , ("credentialSubject", .obj
              [("@id", .str "https://www.w3.org/2018/credentials#credentialSubject")])
          , ("issuer", .obj
              [("@id", .str "https://www.w3.org/2018/credentials#issuer")])
          , ("issuanceDate", .obj
              [ ("@id", .str "https://www.w3.org/2018/credentials#issuanceDate")
              , ("@type", .str "http://www.w3.org/2001/XMLSchema#dateTime")])
          , ("proof", .obj
              [ ("@id", .str "https://w3id.org/security#proof")
              , ("@container", .str "@graph")])
          ])
      ])
  ]

/-- The inlined `CONTEXTS.W3C_SECURITY` table entry. -/
def W3C_SECURITY : Json := .obj
  [ ("id", .str "@id")
  , ("type", .str "@type")
  , ("dc", .str "http://purl.org/dc/terms/")
  , ("sec", .str "https://w3id.org/security#")
  , ("xsd", .str "http://www.w3.org/2001/XMLSchema#")
  , ("Ed25519Signature2018", .str "sec:Ed25519Signature2018")
  , ("Ed25519VerificationKey2018", .str "sec:Ed25519VerificationKey2018")
  , ("assertionMethod", .obj
      [("@id", .str "sec:assertionMethod"), ("@type", .str "@id"), ("@container", .str "@set")])
  , ("authentication", .obj
      [("@id", .str "sec:authentication"), ("@type", .str "@id"), ("@container", .str "@set")])
  , ("created", .obj [("@id", .str "dc:created"), ("@type", .str "xsd:dateTime")])
  , ("creator", .obj [("@id", .str "dc:creator"), ("@type", .str "@id")])
  , ("domain", .str "sec:domain")
  , ("expires", .obj [("@id", .str "sec:expiration"), ("@type", .str "xsd:dateTime")])
  , ("jws", .str "sec:jws")
  , ("nonce", .str "sec:nonce")
  , ("proof", .obj
      [("@id", .str "sec:proof"), ("@type", .str "@id"), ("@container", .str "@graph")])
  , ("proofPurpose", .obj [("@id", .str "sec:proofPurpose"), ("@type", .str "@vocab")])
  , ("proofValue", .str "sec:proofValue")
  , ("publicKey", .obj [("@id", .str "sec:publicKey"), ("@type", .str "@id")])
  , ("publicKeyBase58", .str "sec:publicKeyBase58")
  , ("publicKeyPem", .str "sec:publicKeyPem")
  , ("challenge", .str "sec:challenge")
  , ("controller", .obj [("@id", .str "sec:controller"), ("@type", .str "@id")])
  , ("verificationMethod", .obj [("@id", .str "sec:verificationMethod"), ("@type", .str "@id")])
  ]

/-- The inlined `CONTEXTS.FALLBACK` table entry (catch-all vocabulary). -/
def FALLBACK_CONTEXT : Json := .obj [("@vocab", .str "https://example.org/undefined#")]

/-- The minimal placeholder `ResolvedDocument` the loader produces for
identifiers it does not dereference or could not fetch:
`{ contextUrl: null, document: { "@id": url }, documentUrl: url }`. -/
def placeholderResolved (u : String) : ResolvedDocument :=
  ⟨.null, .obj [("@id", .str u)], .str u⟩

/-- `loadUrlDocument` of the source, specialized to a string argument
(the non-string passthrough branch is `loadUrlDocument` below).  Returns
the resolved triple together with the updated state; every branch of the
source is reproduced, including the three fallback rewrites in the catch
of the plain fetch and the fact that every non-cache-hit outcome is
written to the cache before returning.  `fetch(...)` followed by
`response.ok` / `response.json()` checks is collapsed into the `Env.fetch`
oracle (`some` = parsed body, `none` = any failure); each attempted fetch
is appended to the network log whether or not it succeeds. -/
def loadUrlDocumentS (env : Env) (u : String) (st : VState) :
    ResolvedDocument × VState :=
  match cacheFind st.cache u with
  | some r => (r, st)
  | none =>
    if strLeadsWith u "urn:" || (strLeadsWith u "did:" && !strLeadsWith u "did:web:") then
      let result := placeholderResolved u
      (result, cacheAdd st u result)
    else if strLeadsWith u "did:web:" then
      let didParts := strDropC u 8
      let httpsUrl := "https://" ++ strReplaceAllChar didParts ':' '/' ++ "/did.json"
      match env.fetch httpsUrl with
      | some doc =>
        let result : ResolvedDocument := ⟨.null, doc, .str u⟩
        (result, cacheAdd (netLog st httpsUrl) u result)
      | none =>
        let result := placeholderResolved u
        (result, cacheAdd (netLog st httpsUrl) u result)
    else
      match env.fetch u with
      | some doc =>
        let result : ResolvedDocument := ⟨.null, doc, .str u⟩
        (result, cacheAdd (netLog st u) u result)
      | none =>
        if u = "https://www.w3.org/2018/credentials/v1" then
          let result : ResolvedDocument :=
            ⟨.null, .obj [("@context", W3C_CREDENTIALS_V1)], .str u⟩
          (result, cacheAdd (netLog st u) u result)
        else if u = "https://w3id.org/security/v2" || u = "https://w3id.org/security/v1" then
          let result : ResolvedDocument :=
            ⟨.null, .obj [("@context", W3C_SECURITY)], .str u⟩
          (result, cacheAdd (netLog st u) u result)
        else
          let result : ResolvedDocument :=
            ⟨.null, .obj [("@context", FALLBACK_CONTEXT)], .str u⟩
          (result, cacheAdd (netLog st u) u result)

/-- `loadUrlDocument` of the source with its JS-typed argument: the
non-string branch passes the value through as the document (reading
`url.id || ""` as the canonical URL, which in JS throws a `TypeError`
when the argument is `null`/`undefined`). -/
def loadUrlDocument (env : Env) (url : Json) (st : VState) :
    Except JsError (ResolvedDocument × VState) :=
  match url with
  | .str u => .ok (loadUrlDocumentS env u st)
  | .null => .error ⟨"TypeError", "Cannot read properties of null"⟩
  | .undefined => .error ⟨"TypeError", "Cannot read properties of undefined"⟩
  | other =>
    let idv := getF other "id"
    .ok (⟨.null, other, if jsTruthy idv then idv else .str ""⟩, st)

/-- The fragment string the resolver compares relative entry ids against:
`` `#${verificationMethod.split("#")[1]}` `` (when the identifier has no
fragment, JS renders the absent index as the text `undefined`). -/
def fragmentTemplate (v : String) : String :=
  "#" ++ (strSplitChar v '#').getD 1 "undefined"

/-- The owning identifier: `verificationMethod.split("#")[0]`. -/
def owningDid (v : String) : String := (strSplitChar v '#').getD 0 ""

/-- The `array.find(...)` of the resolver: first element whose `id` is
strictly equal to the full verification-method identifier or to the
relative-fragment form.  A `null`/`undefined` element makes the property
read throw, as in JS. -/
def jsFindKey (v frag : String) : List Json → Except JsError (Option Json)
  | [] => .ok none
  | m :: rest =>
    match jsGetField m "id" with
    | .error e => .error e
    | .ok idv =>
      if jsEqStr idv v || jsEqStr idv frag then .ok (some m)
      else jsFindKey v frag rest

/-- The resolver's loop over `possibleArrays`: each candidate collection
is used only if it is truthy and an array; a truthy found key breaks the
loop (`if (key) { publicKey = key; break; }`). -/
def searchArrays (v frag : String) : List Json → Except JsError (Option Json)
  | [] => .ok none
  | a :: rest =>
    if jsTruthy a && jsIsArray a then
      match jsFindKey v frag (jsElems a) with
      | .error e => .error e
      | .ok (some k) =>
        if jsTruthy k then .ok (some k) else searchArrays v frag rest
      | .ok none => searchArrays v frag rest
    else searchArrays v frag rest

/-- The missing-verification-method error thrown when no collection
yields a key. -/
def missingMethodError (v : String) : JsError :=
  ⟨"Error", "Verification method " ++ v ++ " not found in DID document"⟩

/-- `getPublicKeyFromDID` of the source.  `.ok none` is the JS `return
null` of the catch (an error whose message contains "Failed to fetch");
`.ok (some k)` is a found key record; `.error e` is a propagated
exception.  The catch of the source is inlined at each throw site: the
placeholder-detection throw (`"Failed to fetch DID document"`) always
contains "Failed to fetch" and so always becomes `null`; the
missing-method throw and any `TypeError` from the search loop are
re-checked for that substring exactly as the catch does.  The progress
callback is dropped (the source only invokes it).  A non-string argument
makes `verificationMethod.split` throw, as in JS. -/
def getPublicKeyFromDID (env : Env) (vm : Json) (st : VState) :
    Except JsError (Option Json) × VState :=
  match vm with
  | .str v =>
    let did := owningDid v
    let (resp, st') := loadUrlDocumentS env did st
    let didDocument := resp.document
    if !jsTruthy didDocument || jsEqStr (getF didDocument "@id") did then
      (.ok none, st')
    else
      let possibleArrays :=
        [ getF didDocument "verificationMethod"
        , getF didDocument "authentication"
        , getF didDocument "assertionMethod"
        , getF didDocument "publicKey" ]
      match searchArrays v (fragmentTemplate v) possibleArrays with
      | .error e =>
        if strIncludes e.message "Failed to fetch" then (.ok none, st')
        else (.error e, st')
      | .ok (some k) => (.ok (some k), st')
      | .ok none =>
        if strIncludes (missingMethodError v).message "Failed to fetch" then
          (.ok none, st')
        else (.error (missingMethodError v), st')
  | _ =>
    (.error ⟨"TypeError", "verificationMethod.split is not a function"⟩, st)

/-- The `{verified: false, error: "Invalid credential structure: missing
proof"}` result object. -/
def missingProofResult : Json := .obj
  [ ("verified", .bool false)
  , ("error", .str "Invalid credential structure: missing proof") ]

/-- The unsupported-proof-type result object, interpolating the offending
`proof.type`. -/
def unsupportedTypeResult (t : Json) : Json := .obj
  [ ("verified", .bool false)
  , ("error", .str ("Unsupported proof type: " ++ jsTemplate t ++
      ". Only Ed25519Signature2018 is supported.")) ]

/-- The unresolvable-verification-method (CORS-class) result object. -/
def corsResult : Json := .obj
  [ ("verified", .bool false)
  , ("error", .str "Could not resolve verification method")
  , ("errors", .arr [.str "CORS"]) ]

/-- The timeout result object (`errorType: "TIMEOUT"`). -/
def timeoutResult : Json := .obj
  [ ("verified", .bool false)
  , ("error", .str ("Verification timed out. This may be due to network" ++
      " issues or complex credential processing."))
  , ("errorType", .str "TIMEOUT") ]

/-- The safe-mode result object (`errorType: "SAFE_MODE"`). -/
def safeModeResult (e : JsError) : Json := .obj
  [ ("verified", .bool false)
  , ("error", .str ("JSON-LD safe mode validation error. This typically" ++
      " occurs when the credential contains certain URL patterns that" ++
      " trigger browser security restrictions. In a production" ++
      " environment, this verification would be performed server-side."))
  , ("errorType", .str "SAFE_MODE")
  , ("originalError", .str e.message) ]

/-- The generic failure result: `{verified: false, error: error.message
|| error}` — when the message is the empty string (falsy), the error
object itself is placed in the `error` field. -/
def genericFailureResult (e : JsError) : Json := .obj
  [ ("verified", .bool false)
  , ("error", if e.message ≠ "" then .str e.message
              else .obj [("name", .str e.name), ("message", .str e.message)]) ]

/-- The fixed wall-clock bound of the verification/timeout race, in
milliseconds. -/
def RACE_BOUND : Nat := 10000

/-- The try-block body of `verifyCredentialSignature`: everything inside
the outer `try`, with early `return`s as `.ok` results and uncaught
throws as `.error`.  The race of `jsigs.verify` against the 10-second
timer is modelled on the oracle behaviour: a stalling unit lets the
timer win at `RACE_BOUND` ms (its rejection message contains "timeout",
so the inner catch maps it to the timeout result); a unit settling
strictly before the bound wins the race with its own outcome; a unit
settling at or after the bound loses to the timer.  The race resolution
time is appended to `raceLog`.  Progress callbacks are dropped. -/
def verifyInner (env : Env) (st : VState) : Except JsError Json × VState :=
  let credential := st.credStore
  if !jsTruthy credential || !jsTruthy (getF credential "proof") then
    (.ok missingProofResult, st)
  else
    let proof := getF credential "proof"
    if !jsEqStr (getF proof "type") "Ed25519Signature2018" then
      (.ok (unsupportedTypeResult (getF proof "type")), st)
    else
      match getPublicKeyFromDID env (getF proof "verificationMethod") st with
      | (.error e, st') => (.error e, st')
      | (.ok none, st') => (.ok corsResult, st')
      | (.ok (some publicKey), st') =>
        match env.keyCtor publicKey with
        | .error e => (.error e, st')
        | .ok verificationKey =>
          let suite : SuiteBinding := ⟨verificationKey, getF publicKey "id"⟩
          let st2 := { st' with suiteLog := st'.suiteLog ++ [(publicKey, suite)] }
          match env.jsigsVerify credential suite with
          | .stalls =>
            (.ok timeoutResult, { st2 with raceLog := st2.raceLog ++ [RACE_BOUND] })
          | .completes t r =>
            if t < RACE_BOUND then
              let st3 := { st2 with raceLog := st2.raceLog ++ [t] }
              match r with
              | .ok result => (.ok result, st3)
              | .error ve =>
                if strIncludes ve.message "timeout" then (.ok timeoutResult, st3)
                else (.error ve, st3)
            else
              (.ok timeoutResult, { st2 with raceLog := st2.raceLog ++ [RACE_BOUND] })

/-- `verifyCredentialSignature` of the source: the try body plus the
outer catch, which maps a safe-mode validation error to the safe-mode
result and every other escaped exception to the generic failure result.
The credential argument is read from the caller-owned heap slot
`st.credStore`. -/
def verifyCredentialSignature (env : Env) (st : VState) : Json × VState :=
  match verifyInner env st with
  | (.ok r, st') => (r, st')
  | (.error e, st') =>
    if e.name = "jsonld.ValidationError" && strIncludes e.message "Safe mode" then
      (safeModeResult e, st')
    else
      (genericFailureResult e, st')

/-- A value that is neither `null` nor `undefined` (a property read on it
cannot throw). -/
def notNullish : Json → Bool
  | .null => false
  | .undefined => false
  | _ => true

/-- The match predicate of the resolver: the entry id strictly equals the
full verification-method identifier or the relative-fragment form. -/
def keyMatches (v frag : String) (m : Json) : Bool :=
  jsEqStr (getF m "id") v || jsEqStr (getF m "id") frag

/-- Every element of every key-bearing collection of `d` is neither
`null` nor `undefined` (so the search loop cannot throw a `TypeError`). -/
def collectionEntriesOk (d : Json) : Bool :=
  [ getF d "verificationMethod"
  , getF d "authentication"
  , getF d "assertionMethod"
  , getF d "publicKey" ].all fun a => (jsElems a).all notNullish

/-- First match across a list of key-bearing collections, in list order:
within each collection the first entry satisfying the match predicate;
the first collection that yields a match wins.  (Non-array collection
values contribute no entries.) -/
def firstMatchAcross (v frag : String) : List Json → Option Json
  | [] => none
  | c :: rest =>
    match (jsElems c).find? (keyMatches v frag) with
    | some k => some k
    | none => firstMatchAcross v frag rest

/-- Modelled from the spec (§4.3, declared search order): scan, in the
fixed order `verificationMethod`, `authentication`, `assertionMethod`,
legacy `publicKey`, the four key-bearing collections of the owning
document; within each, the first entry matching the full
verification-method identifier or its relative-fragment form; the first
match across the four collections wins.  This is the spec-side
refinement definition that the code-side resolver is compared with. -/
def specOrderedKeySearch (vmId : String) (d : Json) : Option Json :=
  firstMatchAcross vmId (fragmentTemplate vmId)
    [ getF d "verificationMethod"
    , getF d "authentication"
    , getF d "assertionMethod"
    , getF d "publicKey" ]

/-- A tagged verification result in the sense of §7 of the spec: a
`verified: true` outcome, or a `verified: false` outcome carrying an
`error` diagnostic field. -/
def isTagged (r : Json) : Bool :=
  match getF r "verified" with
  | .bool true => true
  | .bool false =>
    (match getF r "error" with
     | .undefined => false
     | _ => true)
  | _ => false

/-- The shape the claim attributes to the unreachable-placeholder: the
document has exactly one field, the identifier field, equal to the
requested owning identifier. -/
def soleIdField (d : Json) (did : String) : Bool :=
  match d with
  | .obj [(k, .str s)] => k = "@id" && s = did
  | _ => false

/-- Fixture: an environment whose fetches all fail, whose key
constructor accepts any record, and whose verification unit stalls
forever. -/
def stallEnv : Env := ⟨fun _ => none, fun k => .ok k, fun _ _ => .stalls⟩

/-- Fixture: as `stallEnv`, but the verification unit fulfils quickly
with a tagged `verified: true` result. -/
def quickEnv : Env :=
  ⟨fun _ => none, fun k => .ok k,
   fun _ _ => .completes 5 (.ok (.obj [("verified", .bool true)]))⟩

/-- Fixture: an initial state (empty cache and logs) holding `cred` as
the caller-owned credential. -/
def emptyState (cred : Json) : VState := ⟨[], [], [], [], cred⟩

/-- Fixture: a state whose document cache is pre-seeded (standing for an
earlier resolution of the owning document) and holding `cred`. -/
def seededState (c : List (String × ResolvedDocument)) (cred : Json) : VState :=
  ⟨c, [], [], [], cred⟩

/-- Fixture: a verification-method identifier and its owning DID. -/
def vmEx : String := "did:ex#key1"

/-- Fixture: the owning DID of `vmEx`. -/
def didEx : String := "did:ex"

/-- Fixture: a key record under the `verificationMethod` collection. -/
def keyA : Json := .obj [("id", .str "did:ex#key1"), ("publicKeyBase58", .str "AAA")]

/-- Fixture: a key record with the same fragment but different key
material, under the `authentication` collection. -/
def keyB : Json := .obj [("id", .str "did:ex#key1"), ("publicKeyBase58", .str "BBB")]

/-- Fixture: an owning document carrying the same fragment in both
`verificationMethod` (`keyA`) and `authentication` (`keyB`). -/
def docOrdered : Json := .obj
  [ ("@id", .str "https://other")
  , ("verificationMethod", .arr [keyA])
  , ("authentication", .arr [keyB]) ]

/-- Fixture: a credential with a well-formed Ed25519 proof pointing at
`vmEx`. -/
def credEx : Json := .obj
  [ ("proof", .obj
      [ ("type", .str "Ed25519Signature2018")
      , ("verificationMethod", .str vmEx) ]) ]

/-- Fixture: a verification-method identifier whose owning document (see
`docEcho`) echoes the owning identifier in its `@id` field while also
carrying the requested key. -/
def vmEcho : String := "https://ex.org/issuer#k1"

/-- Fixture: the owning identifier of `vmEcho`. -/
def didEcho : String := "https://ex.org/issuer"

/-- Fixture: the key record matching `vmEcho`. -/
def keyEcho : Json := .obj [("id", .str "https://ex.org/issuer#k1"), ("publicKeyBase58", .str "CCC")]

/-- Fixture: a two-field owning document — `@id` equal to the owning
identifier and a `verificationMethod` collection containing the
requested key — so it is not structurally indistinguishable from the
loader placeholder, yet its `@id` echoes the identifier. -/
def docEcho : Json := .obj
  [ ("@id", .str "https://ex.org/issuer")
  , ("verificationMethod", .arr [keyEcho]) ]

/-- Fixture: the verification-method identifier for the C5 echo
counterexample document. -/
def vmC5 : String := "did:ex2#key1"

/-- Fixture: the owning DID of `vmC5`. -/
def didC5 : String := "did:ex2"

/-- Fixture: the `verificationMethod` entry of `docEchoOrdered`. -/
def keyC5A : Json := .obj [("id", .str "did:ex2#key1"), ("publicKeyBase58", .str "AAA")]

/-- Fixture: the `authentication` entry of `docEchoOrdered`, same
fragment, different key material. -/
def keyC5B : Json := .obj [("id", .str "did:ex2#key1"), ("publicKeyBase58", .str "BBB")]

/-- Fixture: an owning document with matching entries in more than one
key-bearing collection (different key material), whose `@id` field
equals the owning identifier. -/
def docEchoOrdered : Json := .obj
  [ ("@id", .str "did:ex2")
  , ("verificationMethod", .arr [keyC5A])
  , ("authentication", .arr [keyC5B]) ]

theorem load_hit (env : Env) (u : String) (st : VState) (r : ResolvedDocument)
    (h : cacheFind st.cache u = some r) :
    loadUrlDocumentS env u st = (r, st) := by
  unfold loadUrlDocumentS
  rw [h]

theorem load_caches_self (env : Env) (u : String) (st : VState) :
    cacheFind (loadUrlDocumentS env u st).2.cache u =
      some (loadUrlDocumentS env u st).1 := by
  cases hc : cacheFind st.cache u with
  | some r => rw [load_hit env u st r hc]; exact hc
  | none =>
    simp only [loadUrlDocumentS, hc]
    repeat' split
    all_goals simp [cacheAdd, netLog, cacheFind]

theorem load_preserves_rest (env : Env) (u : String) (st : VState) :
    (loadUrlDocumentS env u st).2.suiteLog = st.suiteLog ∧
    (loadUrlDocumentS env u st).2.raceLog = st.raceLog ∧
    (loadUrlDocumentS env u st).2.credStore = st.credStore := by
  simp only [loadUrlDocumentS]
  repeat' split
  all_goals exact ⟨rfl, rfl, rfl⟩

/-- C6: for every identifier string, the first call writes its outcome
into the cache, and the immediately repeated call returns the identical
`ResolvedDocument` from the cache, leaving the state (in particular the
network-request log) untouched — for every resolution outcome (cache
hit, placeholder, web-DID fetch or fallback), since each branch caches
its result before returning. -/
theorem loader_idempotent (env : Env) (u : String) (st : VState) :
    cacheFind (loadUrlDocumentS env u st).2.cache u =
      some (loadUrlDocumentS env u st).1 ∧
    loadUrlDocumentS env u (loadUrlDocumentS env u st).2 =
      loadUrlDocumentS env u st := by
  refine ⟨load_caches_self env u st, ?_⟩
  rw [load_hit env u _ _ (load_caches_self env u st)]

/-- C4: an identifier that is a URN or a non-web decentralized
identifier resolves to the minimal placeholder document whose only field
is the identifier itself, and no network request is issued (provided the
cache holds no conflicting entry for it — the loader itself only ever
caches the placeholder under such identifiers). -/
theorem urn_nonweb_placeholder (env : Env) (u : String) (st : VState)
    (hclass : strLeadsWith u "urn:" = true ∨
      (strLeadsWith u "did:" = true ∧ strLeadsWith u "did:web:" = false))
    (hcache : cacheFind st.cache u = none ∨
      cacheFind st.cache u = some (placeholderResolved u)) :
    (loadUrlDocumentS env u st).1 = placeholderResolved u ∧
    (loadUrlDocumentS env u st).1.document = Json.obj [("@id", Json.str u)] ∧
    (loadUrlDocumentS env u st).2.net = st.net := by
  have hcond : (strLeadsWith u "urn:" ||
      (strLeadsWith u "did:" && !strLeadsWith u "did:web:")) = true := by
    rcases hclass with h1 | ⟨h1, h2⟩
    · simp [h1]
    · simp [h1, h2]
  rcases hcache with h | h
  · unfold loadUrlDocumentS
    rw [h]
    simp [hcond, cacheAdd, placeholderResolved]
  · rw [load_hit env u st _ h]
    exact ⟨rfl, rfl, rfl⟩

/-- C4 witness: a concrete non-web DID from the empty cache. -/
theorem urn_nonweb_placeholder_witness :
    (loadUrlDocumentS stallEnv "did:key:z6Mk" (emptyState .null)).1.document =
      Json.obj [("@id", Json.str "did:key:z6Mk")] ∧
    (loadUrlDocumentS stallEnv "did:key:z6Mk" (emptyState .null)).2.net =
      (emptyState .null).net :=
  ⟨(urn_nonweb_placeholder stallEnv "did:key:z6Mk" (emptyState .null)
      (Or.inr ⟨by decide, by decide⟩) (Or.inl rfl)).2.1,
   (urn_nonweb_placeholder stallEnv "did:key:z6Mk" (emptyState .null)
      (Or.inr ⟨by decide, by decide⟩) (Or.inl rfl)).2.2⟩

theorem getPK_preserves_rest (env : Env) (vm : Json) (st : VState) :
    (getPublicKeyFromDID env vm st).2.suiteLog = st.suiteLog ∧
    (getPublicKeyFromDID env vm st).2.raceLog = st.raceLog ∧
    (getPublicKeyFromDID env vm st).2.credStore = st.credStore := by
  simp only [getPublicKeyFromDID]
  split
  case h_2 => exact ⟨rfl, rfl, rfl⟩
  case h_1 v =>
    have hL := load_preserves_rest env (owningDid v) st
    repeat' split
    all_goals exact hL

theorem getPK_state_on_hit (env : Env) (v : String) (st : VState)
    (rd : ResolvedDocument) (h : cacheFind st.cache (owningDid v) = some rd) :
    (getPublicKeyFromDID env (.str v) st).2 = st := by
  simp only [getPublicKeyFromDID, load_hit env (owningDid v) st rd h]
  repeat' split
  all_goals rfl

/-- C9: one verification call never mutates the caller-owned credential
object: the heap slot holding it is identical (every field, including
the proof block) when the call returns, for every credential, every
environment and every starting state. -/
theorem credential_not_mutated (env : Env) (st : VState) :
    (verifyCredentialSignature env st).2.credStore = st.credStore := by
  have hinner : (verifyInner env st).2.credStore = st.credStore := by
    simp only [verifyInner]
    split
    · rfl
    · split
      · rfl
      · split
        case h_1 e st' heq =>
          have := (getPK_preserves_rest env (getF (getF st.credStore "proof")
            "verificationMethod") st).2.2
          rw [heq] at this
          exact this
        case h_2 st' heq =>
          have := (getPK_preserves_rest env (getF (getF st.credStore "proof")
            "verificationMethod") st).2.2
          rw [heq] at this
          exact this
        case h_3 publicKey st' heq =>
          have hPK : st'.credStore = st.credStore := by
            have := (getPK_preserves_rest env (getF (getF st.credStore "proof")
              "verificationMethod") st).2.2
            rw [heq] at this
            exact this
          repeat' split
          all_goals exact hPK
  simp only [verifyCredentialSignature]
  split
  case h_1 r st' heq =>
    have h2 : st'.credStore = st.credStore := by
      have := congrArg (fun p => p.2.credStore) heq
      simp only at this
      exact this.symm.trans hinner
    exact h2
  case h_2 e st' heq =>
    have h2 : st'.credStore = st.credStore := by
      have := congrArg (fun p => p.2.credStore) heq
      simp only at this
      exact this.symm.trans hinner
    split
    · exact h2
    · exact h2

/-- C10: a null (or undefined) credential argument does not escape as an
exception: the structure guard treats it exactly like a credential
missing its proof, returning the typed missing-proof failure result with
the state untouched. -/
theorem null_credential_handled (env : Env) (st : VState)
    (h : st.credStore = Json.null ∨ st.credStore = Json.undefined) :
    verifyCredentialSignature env st = (missingProofResult, st) := by
  rcases h with h | h
  all_goals
    simp only [verifyCredentialSignature, verifyInner, h]
    rfl

/-- C10 witness: the concrete null credential from the empty state. -/
theorem null_credential_handled_witness :
    verifyCredentialSignature stallEnv (emptyState .null) =
      (missingProofResult, emptyState .null) :=
  null_credential_handled stallEnv (emptyState .null) (Or.inl rfl)

/-- C2: the structural prechecks fire before any resolution work: a
credential that is falsy or lacks a truthy `proof` yields the
missing-proof (MalformedCredential) result, and a present proof whose
`type` is not `Ed25519Signature2018` yields the unsupported-proof-type
result — in both cases with the state returned exactly as it was, so no
network request and no document-loader call (no cache activity) has
happened. -/
theorem precheck_before_network (env : Env) (st : VState) :
    ((!jsTruthy st.credStore || !jsTruthy (getF st.credStore "proof")) = true →
      verifyCredentialSignature env st = (missingProofResult, st)) ∧
    (jsTruthy st.credStore = true →
     jsTruthy (getF st.credStore "proof") = true →
     jsEqStr (getF (getF st.credStore "proof") "type") "Ed25519Signature2018" = false →
      verifyCredentialSignature env st =
        (unsupportedTypeResult (getF (getF st.credStore "proof") "type"), st)) := by
  constructor
  · intro h
    simp [verifyCredentialSignature, verifyInner, h]
  · intro h1 h2 h3
    simp [verifyCredentialSignature, verifyInner, h1, h2, h3]

/-- C2 witness: a missing-proof credential and a wrong-proof-type
credential, both from the empty state; neither touches the network log
or the cache. -/
theorem precheck_before_network_witness :
    verifyCredentialSignature stallEnv (emptyState (.obj [("id", .str "x")])) =
      (missingProofResult, emptyState (.obj [("id", .str "x")])) ∧
    verifyCredentialSignature stallEnv
        (emptyState (.obj [("proof", .obj [("type", .str "RsaSignature2018")])])) =
      (unsupportedTypeResult (.str "RsaSignature2018"),
        emptyState (.obj [("proof", .obj [("type", .str "RsaSignature2018")])])) :=
  ⟨(precheck_before_network stallEnv
      (emptyState (.obj [("id", .str "x")]))).1 (by decide),
   (precheck_before_network stallEnv
      (emptyState (.obj [("proof", .obj [("type", .str "RsaSignature2018")])]))).2
      (by decide) (by decide) (by decide)⟩

theorem verifyInner_suiteLog (env : Env) (st : VState) :
    (verifyInner env st).2.suiteLog = st.suiteLog ∨
    ∃ pk su, (verifyInner env st).2.suiteLog = st.suiteLog ++ [(pk, su)] ∧
      su.verificationMethod = getF pk "id" := by
  simp only [verifyInner]
  split
  · exact Or.inl rfl
  · split
    · exact Or.inl rfl
    · split
      case h_1 e st' heq =>
        left
        have := (getPK_preserves_rest env (getF (getF st.credStore "proof")
          "verificationMethod") st).1
        rw [heq] at this
        exact this
      case h_2 st' heq =>
        left
        have := (getPK_preserves_rest env (getF (getF st.credStore "proof")
          "verificationMethod") st).1
        rw [heq] at this
        exact this
      case h_3 publicKey st' heq =>
        have hPK : st'.suiteLog = st.suiteLog := by
          have := (getPK_preserves_rest env (getF (getF st.credStore "proof")
            "verificationMethod") st).1
          rw [heq] at this
          exact this
        split
        case h_1 e heq2 => exact Or.inl hPK
        case h_2 verificationKey heq2 =>
          repeat' split
          all_goals
            exact Or.inr ⟨publicKey, ⟨verificationKey, getF publicKey "id"⟩,
              by simp [hPK], rfl⟩

/-- C7: whenever a verification run reaches suite assembly, the suite it
builds binds its verification method to the `id` field of the resolved
key record itself (the record paired with the suite in the log), not to
the caller-supplied `proof.verificationMethod` identifier. -/
theorem suite_binds_resolved_key_id (env : Env) (st : VState) :
    (verifyCredentialSignature env st).2.suiteLog = st.suiteLog ∨
    ∃ pk su,
      (verifyCredentialSignature env st).2.suiteLog = st.suiteLog ++ [(pk, su)] ∧
      su.verificationMethod = getF pk "id" := by
  have h := verifyInner_suiteLog env st
  simp only [verifyCredentialSignature]
  split
  case h_1 r st' heq => rw [heq] at h; exact h
  case h_2 e st' heq =>
    rw [heq] at h
    split
    · exact h
    · exact h

theorem keyMatches_truthy {v frag : String} {m : Json}
    (h : keyMatches v frag m = true) : jsTruthy m = true := by
  cases m <;> simp [keyMatches, getF, jsEqStr, jsTruthy] at h ⊢

theorem jsGetField_ok {m : Json} (f : String) (h : notNullish m = true) :
    jsGetField m f = .ok (getF m f) := by
  cases m <;> simp [notNullish] at h <;> rfl

theorem jsFindKey_eq_find (v frag : String) (xs : List Json)
    (h : xs.all notNullish = true) :
    jsFindKey v frag xs = .ok (xs.find? (keyMatches v frag)) := by
  induction xs with
  | nil => rfl
  | cons m rest ih =>
    simp only [List.all_cons, Bool.and_eq_true] at h
    simp only [jsFindKey, jsGetField_ok "id" h.1, List.find?]
    by_cases hm : keyMatches v frag m = true
    · have : (jsEqStr (getF m "id") v || jsEqStr (getF m "id") frag) = true := hm
      simp [this, hm]
    · have hm' : keyMatches v frag m = false := by
        cases hk : keyMatches v frag m
        · rfl
        · exact absurd hk hm
      have : (jsEqStr (getF m "id") v || jsEqStr (getF m "id") frag) = false := hm'
      simp [this, hm', ih h.2]

theorem searchArrays_eq_first (v frag : String) (cs : List Json)
    (h : cs.all (fun a => (jsElems a).all notNullish) = true) :
    searchArrays v frag cs = .ok (firstMatchAcross v frag cs) := by
  induction cs with
  | nil => rfl
  | cons a rest ih =>
    simp only [List.all_cons, Bool.and_eq_true] at h
    cases a with
    | arr xs =>
      have hcond : (jsTruthy (Json.arr xs) && jsIsArray (Json.arr xs)) = true := rfl
      simp only [searchArrays, firstMatchAcross, hcond, if_true, jsElems,
        jsFindKey_eq_find v frag xs h.1]
      cases hf : xs.find? (keyMatches v frag) with
      | some k =>
        have hk := List.find?_some hf
        simp [keyMatches_truthy hk]
      | none => exact ih h.2
    | null => exact ih h.2
    | undefined => exact ih h.2
    | obj kvs => exact ih h.2
    | bool b =>
      have hcond : (jsTruthy (Json.bool b) && jsIsArray (Json.bool b)) = false := by
        simp [jsIsArray]
      have hstep : searchArrays v frag (Json.bool b :: rest) =
          searchArrays v frag rest := by
        simp [searchArrays, hcond]
      rw [hstep]
      exact ih h.2
    | num n =>
      have hcond : (jsTruthy (Json.num n) && jsIsArray (Json.num n)) = false := by
        simp [jsIsArray]
      have hstep : searchArrays v frag (Json.num n :: rest) =
          searchArrays v frag rest := by
        simp [searchArrays, hcond]
      rw [hstep]
      exact ih h.2
    | str s =>
      have hcond : (jsTruthy (Json.str s) && jsIsArray (Json.str s)) = false := by
        simp [jsIsArray]
      have hstep : searchArrays v frag (Json.str s :: rest) =
          searchArrays v frag rest := by
        simp [searchArrays, hcond]
      rw [hstep]
      exact ih h.2

/-- C5 counterexample: a document squarely in the frozen claim domain —
the same fragment matches in both `verificationMethod` and
`authentication` with different key material — but whose `@id` field
equals the owning identifier.  The echo check fires before the
collection search, so the resolver returns None instead of the
`verificationMethod` entry the claim requires. -/
theorem resolver_order_echo_counterexample :
    (getPublicKeyFromDID stallEnv (.str vmC5)
        (seededState [(didC5, ⟨.null, docEchoOrdered, .str didC5⟩)] .null)).1 =
      .ok none ∧
    (jsElems (getF docEchoOrdered "verificationMethod")).find?
        (keyMatches vmC5 (fragmentTemplate vmC5)) = some keyC5A ∧
    (jsElems (getF docEchoOrdered "authentication")).find?
        (keyMatches vmC5 (fragmentTemplate vmC5)) = some keyC5B ∧
    jsTemplate (getF keyC5A "publicKeyBase58") ≠
      jsTemplate (getF keyC5B "publicKeyBase58") :=
  ⟨rfl, rfl, rfl, by decide⟩

/-- C5 (amended): for every owning document the resolver actually
searches — truthy, `@id` not echoing the owning identifier, and
key-bearing collections free of null/undefined entries — it scans the
four collections in the fixed order `verificationMethod`,
`authentication`, `assertionMethod`, legacy `publicKey`, and returns the
first match (whether by full identifier or by relative fragment):
whenever the spec-side ordered search `specOrderedKeySearch` finds `k`,
the resolver returns exactly `k` — in particular a `verificationMethod`
entry always beats an `authentication` entry with the same fragment but
different key material. -/
theorem resolver_collection_order (env : Env) (st : VState) (vmId : String)
    (d : Json) (rd : ResolvedDocument) (k : Json)
    (hc : cacheFind st.cache (owningDid vmId) = some rd)
    (hdoc : rd.document = d)
    (hok : collectionEntriesOk d = true)
    (htr : jsTruthy d = true)
    (hid : jsEqStr (getF d "@id") (owningDid vmId) = false)
    (hfind : specOrderedKeySearch vmId d = some k) :
    getPublicKeyFromDID env (.str vmId) st = (.ok (some k), st) := by
  have hs := searchArrays_eq_first vmId (fragmentTemplate vmId)
    [ getF d "verificationMethod", getF d "authentication"
    , getF d "assertionMethod", getF d "publicKey" ] hok
  have hfm : firstMatchAcross vmId (fragmentTemplate vmId)
      [ getF d "verificationMethod", getF d "authentication"
      , getF d "assertionMethod", getF d "publicKey" ] = some k := hfind
  simp only [getPublicKeyFromDID, load_hit env (owningDid vmId) st rd hc, hdoc,
    htr, hid, Bool.not_true, Bool.false_or, Bool.or_self, if_false, hs, hfm]
  rfl

/-- C5 witness: with the same fragment present in both
`verificationMethod` (material "AAA") and `authentication` (material
"BBB"), the resolver returns the `verificationMethod` entry. -/
theorem resolver_collection_order_witness :
    getPublicKeyFromDID stallEnv (.str vmEx)
        (seededState [(didEx, ⟨.null, docOrdered, .str didEx⟩)] .null) =
      (.ok (some keyA),
        seededState [(didEx, ⟨.null, docOrdered, .str didEx⟩)] .null) ∧
    jsTemplate (getF keyA "publicKeyBase58") ≠
      jsTemplate (getF keyB "publicKeyBase58") :=
  ⟨resolver_collection_order stallEnv
      (seededState [(didEx, ⟨.null, docOrdered, .str didEx⟩)] .null) vmEx
      docOrdered ⟨.null, docOrdered, .str didEx⟩ keyA rfl rfl (by decide)
      (by decide) (by decide) rfl,
   by decide⟩

/-- C3 counterexample: an owning document that is NOT structurally
indistinguishable from the loader placeholder (it has two fields: an
`@id` echoing the owning identifier, and a `verificationMethod`
collection containing exactly the requested key) still makes the
resolver return None — the code checks only the `@id` field, not that it
is the sole field, so the claimed "exactly when its only field is the
identifier" boundary is wrong: here the matching key exists and the
claim requires it to be returned. -/
theorem resolver_none_shape_counterexample :
    (getPublicKeyFromDID stallEnv (.str vmEcho)
        (seededState [(didEcho, ⟨.null, docEcho, .str didEcho⟩)] .null)).1 =
      .ok none ∧
    soleIdField docEcho (owningDid vmEcho) = false ∧
    (jsElems (getF docEcho "verificationMethod")).find?
        (keyMatches vmEcho (fragmentTemplate vmEcho)) = some keyEcho :=
  ⟨rfl, by decide, rfl⟩

/-- C3 (amended): the resolver returns None exactly when the loaded
owning document is falsy or its `@id` field equals the requested owning
identifier (regardless of any other fields it carries); in every other
case it returns the first matching key record in the fixed collection
order, or propagates the missing-verification-method error naming the
identifier — provided the key collections contain no null/undefined
entries and the identifier does not itself contain the text "Failed to
fetch" (either proviso otherwise reroutes the outcome through the
catch). -/
theorem resolver_none_iff_id_echo (env : Env) (st : VState) (vmId : String)
    (d : Json) (rd : ResolvedDocument)
    (hc : cacheFind st.cache (owningDid vmId) = some rd)
    (hdoc : rd.document = d)
    (hok : collectionEntriesOk d = true)
    (hvm : strIncludes (missingMethodError vmId).message "Failed to fetch" = false) :
    ((getPublicKeyFromDID env (.str vmId) st).1 = .ok none ↔
      (jsTruthy d = false ∨ jsEqStr (getF d "@id") (owningDid vmId) = true)) ∧
    (∀ k, (getPublicKeyFromDID env (.str vmId) st).1 = .ok (some k) →
      specOrderedKeySearch vmId d = some k) ∧
    (∀ e, (getPublicKeyFromDID env (.str vmId) st).1 = .error e →
      e = missingMethodError vmId) ∧
    (getPublicKeyFromDID env (.str vmId) st).2 = st := by
  have hload := load_hit env (owningDid vmId) st rd hc
  by_cases hcond : (!jsTruthy d || jsEqStr (getF d "@id") (owningDid vmId)) = true
  · have hres : getPublicKeyFromDID env (.str vmId) st = (.ok none, st) := by
      simp only [getPublicKeyFromDID, hload, hdoc, hcond, if_true]
    rw [hres]
    refine ⟨?_, ?_, ?_, rfl⟩
    · constructor
      · intro _
        have hor : jsTruthy d = false ∨
            jsEqStr (getF d "@id") (owningDid vmId) = true := by
          simpa using hcond
        exact hor
      · intro _; rfl
    · intro k hk; exact absurd hk (by simp)
    · intro e he; exact absurd he (by simp)
  · have hcond' : (!jsTruthy d || jsEqStr (getF d "@id") (owningDid vmId)) = false :=
      Bool.eq_false_iff.mpr hcond
    have h1 : jsTruthy d = true := by
      cases hjt : jsTruthy d
      · rw [hjt] at hcond'; simp at hcond'
      · rfl
    have h2 : jsEqStr (getF d "@id") (owningDid vmId) = false := by
      cases hje : jsEqStr (getF d "@id") (owningDid vmId)
      · rfl
      · rw [hje] at hcond'; simp at hcond'
    have hs := searchArrays_eq_first vmId (fragmentTemplate vmId)
      [ getF d "verificationMethod", getF d "authentication"
      , getF d "assertionMethod", getF d "publicKey" ] hok
    cases hfm : firstMatchAcross vmId (fragmentTemplate vmId)
        [ getF d "verificationMethod", getF d "authentication"
        , getF d "assertionMethod", getF d "publicKey" ] with
    | some k =>
      have hres : getPublicKeyFromDID env (.str vmId) st = (.ok (some k), st) := by
        simp only [getPublicKeyFromDID, hload, hdoc, hcond', hs, hfm]
        rfl
      rw [hres]
      refine ⟨by simp [h1, h2], ?_, ?_, rfl⟩
      · intro k2 hk2
        have hkk : k = k2 := Option.some.inj (Except.ok.inj hk2)
        rw [← hkk]
        exact hfm
      · intro e he; exact absurd he (by simp)
    | none =>
      have hres : getPublicKeyFromDID env (.str vmId) st =
          (.error (missingMethodError vmId), st) := by
        simp only [getPublicKeyFromDID, hload, hdoc, hcond', hs, hfm, hvm]
        rfl
      rw [hres]
      refine ⟨by simp [h1, h2], ?_, ?_, rfl⟩
      · intro k hk; exact absurd hk (by simp)
      · intro e he
        injection he with h
        exact h.symm

/-- C3 (amended) witness: the ordered fixture document, whose `@id` does
not echo the owning identifier: the resolver does not return None, and
the returned record is the first ordered match. -/
theorem resolver_none_iff_id_echo_witness :
    (((getPublicKeyFromDID stallEnv (.str vmEx)
        (seededState [(didEx, ⟨.null, docOrdered, .str didEx⟩)] .null)).1 = .ok none ↔
      (jsTruthy docOrdered = false ∨
        jsEqStr (getF docOrdered "@id") (owningDid vmEx) = true)) ∧
    (∀ k, (getPublicKeyFromDID stallEnv (.str vmEx)
        (seededState [(didEx, ⟨.null, docOrdered, .str didEx⟩)] .null)).1 =
          .ok (some k) →
      specOrderedKeySearch vmEx docOrdered = some k) ∧
    (∀ e, (getPublicKeyFromDID stallEnv (.str vmEx)
        (seededState [(didEx, ⟨.null, docOrdered, .str didEx⟩)] .null)).1 =
          .error e →
      e = missingMethodError vmEx) ∧
    (getPublicKeyFromDID stallEnv (.str vmEx)
        (seededState [(didEx, ⟨.null, docOrdered, .str didEx⟩)] .null)).2 =
      seededState [(didEx, ⟨.null, docOrdered, .str didEx⟩)] .null) :=
  resolver_none_iff_id_echo stallEnv
    (seededState [(didEx, ⟨.null, docOrdered, .str didEx⟩)] .null) vmEx
    docOrdered ⟨.null, docOrdered, .str didEx⟩ rfl rfl (by decide) (by decide)

theorem isTagged_missingProof : isTagged missingProofResult = true := rfl

theorem isTagged_unsupported (t : Json) : isTagged (unsupportedTypeResult t) = true := rfl

theorem isTagged_cors : isTagged corsResult = true := rfl

theorem isTagged_timeout : isTagged timeoutResult = true := rfl

theorem isTagged_safeMode (e : JsError) : isTagged (safeModeResult e) = true := rfl

theorem isTagged_generic (e : JsError) : isTagged (genericFailureResult e) = true := by
  by_cases h : e.message = ""
  · simp [genericFailureResult, isTagged, getF, fieldLookup, h]
  · simp [genericFailureResult, isTagged, getF, fieldLookup, h]

theorem verifyInner_ok_tagged (env : Env) (st : VState)
    (henv : ∀ c s t r, env.jsigsVerify c s = .completes t (.ok r) →
      isTagged r = true)
    (r : Json) (st' : VState) (h : verifyInner env st = (.ok r, st')) :
    isTagged r = true := by
  simp only [verifyInner] at h
  repeat' split at h
  all_goals
    first
    | (injection h with h1 h2
       injection h1 with h1
       subst h1
       first
       | exact isTagged_missingProof
       | exact isTagged_unsupported _
       | exact isTagged_cors
       | exact isTagged_timeout
       | exact henv _ _ _ _ ‹_›)
    | (injection h with h1 h2
       injection h1)

/-- C1: for every credential, every starting state and every environment
whose verification library fulfils only with tagged results (its
contract), the orchestrator returns a tagged verification result —
`verified: true`, or `verified: false` with an `error` diagnostic — and,
being a total function into result objects, lets no exception escape
from its handled region. -/
theorem orchestrator_total_tagged (env : Env) (st : VState)
    (henv : ∀ c s t r, env.jsigsVerify c s = .completes t (.ok r) →
      isTagged r = true) :
    isTagged (verifyCredentialSignature env st).1 = true := by
  simp only [verifyCredentialSignature]
  split
  case h_1 r st' heq => exact verifyInner_ok_tagged env st henv r st' heq
  case h_2 e st' heq =>
    split
    · exact isTagged_safeMode e
    · exact isTagged_generic e

/-- C1 witness: a quickly fulfilling tagged environment on the fixture
credential. -/
theorem orchestrator_total_tagged_witness :
    (∀ c s t r, quickEnv.jsigsVerify c s = .completes t (.ok r) →
      isTagged r = true) ∧
    isTagged (verifyCredentialSignature quickEnv (emptyState credEx)).1 = true :=
  ⟨fun _ _ _ _ h => by cases h; rfl,
   orchestrator_total_tagged quickEnv (emptyState credEx)
     (fun _ _ _ _ h => by cases h; rfl)⟩

theorem verifyInner_stall (env : Env) (st : VState)
    (hstall : ∀ s, env.jsigsVerify st.credStore s = UnitBehavior.stalls) :
    (verifyInner env st).2.raceLog = st.raceLog ∨
    ((verifyInner env st).1 = .ok timeoutResult ∧
     (verifyInner env st).2.raceLog = st.raceLog ++ [RACE_BOUND]) := by
  simp only [verifyInner]
  split
  · exact Or.inl rfl
  · split
    · exact Or.inl rfl
    · split
      case h_1 e st' heq =>
        left
        have := (getPK_preserves_rest env (getF (getF st.credStore "proof")
          "verificationMethod") st).2.1
        rw [heq] at this
        exact this
      case h_2 st' heq =>
        left
        have := (getPK_preserves_rest env (getF (getF st.credStore "proof")
          "verificationMethod") st).2.1
        rw [heq] at this
        exact this
      case h_3 publicKey st' heq =>
        have hPK : st'.raceLog = st.raceLog := by
          have := (getPK_preserves_rest env (getF (getF st.credStore "proof")
            "verificationMethod") st).2.1
          rw [heq] at this
          exact this
        split
        case h_1 e heq2 => exact Or.inl hPK
        case h_2 verificationKey heq2 =>
          rw [hstall]
          right
          exact ⟨rfl, by simp [hPK]⟩

/-- C8: if the underlying verification unit stalls indefinitely, then in
any run that reaches the verification race the orchestrator resolves the
race at exactly the fixed bound `RACE_BOUND` = 10000 ms (the timer wins)
and returns the Timeout-kind result (`errorType: "TIMEOUT"`,
`verified: false`); a run that never reaches the race leaves the race
log untouched.  In either case the caller is never blocked beyond the
bound. -/
theorem stall_timeout_bound (env : Env) (st : VState)
    (hstall : ∀ s, env.jsigsVerify st.credStore s = UnitBehavior.stalls) :
    (verifyCredentialSignature env st).2.raceLog = st.raceLog ∨
    ((verifyCredentialSignature env st).2.raceLog = st.raceLog ++ [RACE_BOUND] ∧
     RACE_BOUND = 10000 ∧
     getF (verifyCredentialSignature env st).1 "errorType" = Json.str "TIMEOUT" ∧
     getF (verifyCredentialSignature env st).1 "verified" = Json.bool false) := by
  have hin := verifyInner_stall env st hstall
  simp only [verifyCredentialSignature]
  split
  case h_1 r st' heq =>
    rw [heq] at hin
    rcases hin with h | ⟨h1, h2⟩
    · exact Or.inl h
    · have hr : r = timeoutResult := Except.ok.inj h1
      subst hr
      exact Or.inr ⟨h2, rfl, rfl, rfl⟩
  case h_2 e st' heq =>
    rw [heq] at hin
    rcases hin with h | ⟨h1, h2⟩
    · left
      split
      · exact h
      · exact h
    · exact absurd h1 (by simp)

/-- C8 witness: the stalling environment on the fixture credential with
the owning document pre-resolved: the race is reached, resolves at the
bound, and yields the Timeout result. -/
theorem stall_timeout_bound_witness :
    ((verifyCredentialSignature stallEnv
        (seededState [(didEx, ⟨.null, docOrdered, .str didEx⟩)] credEx)).2.raceLog =
      (seededState [(didEx, ⟨.null, docOrdered, .str didEx⟩)] credEx).raceLog ∨
     ((verifyCredentialSignature stallEnv
        (seededState [(didEx, ⟨.null, docOrdered, .str didEx⟩)] credEx)).2.raceLog =
      (seededState [(didEx, ⟨.null, docOrdered, .str didEx⟩)] credEx).raceLog ++
        [RACE_BOUND] ∧
      RACE_BOUND = 10000 ∧
      getF (verifyCredentialSignature stallEnv
        (seededState [(didEx, ⟨.null, docOrdered, .str didEx⟩)] credEx)).1
          "errorType" = Json.str "TIMEOUT" ∧
      getF (verifyCredentialSignature stallEnv
        (seededState [(didEx, ⟨.null, docOrdered, .str didEx⟩)] credEx)).1
          "verified" = Json.bool false)) ∧
    (verifyCredentialSignature stallEnv
        (seededState [(didEx, ⟨.null, docOrdered, .str didEx⟩)] credEx)).2.raceLog =
      [RACE_BOUND] :=
  ⟨stall_timeout_bound stallEnv
     (seededState [(didEx, ⟨.null, docOrdered, .str didEx⟩)] credEx)
     (fun _ => rfl),
   rfl⟩
